import Mathlib

/-!
Verification development for the zenchat-backend authentication controller
(`src/controllers/user.controller.ts`) and the application boundary
(rate limiter and middleware setup in the unnamed app entry file).

The TypeScript code is shallowly embedded: the Express controllers become
pure functions over an explicit datastore state (a list of users), the
response/cookie side effects become explicit return values, and external
collaborators that are not part of the provided sources (the user
repository, bcrypt, token creation) are modelled faithfully from the
specification, each marked with a doc comment.
-/

namespace ZenChat

/-- Role codes of the repository's Role model. Only `USER` is referenced by
the controller (`RoleCode.USER` at user creation). -/
inductive RoleCode where
  | USER
  | ADMIN
  deriving Repr, DecidableEq

/-- Modelled from the spec: the digest produced by the CredentialHasher
(bcrypt). A bcrypt digest records the cost factor and the salt used, plus
the derived key; `bcrypt.compare` re-derives with the digest's own cost and
salt. -/
structure BcryptDigest where
  cost : Nat
  salt : Nat
  mac : Nat
  deriving Repr, DecidableEq

/-- Modelled from the spec: the deterministic key-derivation core of the
adaptive salted one-way function. The concrete mixing function is a
stand-in; the properties proved below use only that it is a function of
(cost, salt, plaintext). -/
def bcryptMix (cost salt : Nat) (p : String) : Nat :=
  p.data.foldl (fun a c => (a * 31 + c.toNat + 1) % 4294967296)
    ((salt * 131 + cost) % 4294967296)

/-- Modelled from the spec: `bcrypt.hash(plaintext, 10)` — hashes with a
fresh random salt (passed explicitly here) at cost factor 10, as called at
signup (`user.controller.ts` line 29). -/
def bcryptHash (salt : Nat) (plaintext : String) : BcryptDigest :=
  { cost := 10, salt := salt, mac := bcryptMix 10 salt plaintext }

/-- Modelled from the spec: `bcrypt.compare(plaintext, digest)` — re-derives
with the digest's recorded cost and salt and compares, as called at login
(`user.controller.ts` line 65). -/
def bcryptCompare (plaintext : String) (d : BcryptDigest) : Bool :=
  bcryptMix d.cost d.salt plaintext == d.mac

/-- The User record of the repository's User model: the controller reads
`user.password` and destructures `password` and `status` away at login. -/
structure User where
  id : Nat
  username : String
  email : String
  password : BcryptDigest
  avatarUrl : String
  status : Bool
  role : RoleCode
  deriving Repr, DecidableEq

/-- The public projection of a User produced by the login destructuring
`const { password: pass, status, ...filteredUser } = user` — every field of
User except `password` and `status`. -/
structure FilteredUser where
  id : Nat
  username : String
  email : String
  avatarUrl : String
  role : RoleCode
  deriving Repr, DecidableEq

/-- The destructuring at `user.controller.ts` line 68: drops `password` and
`status`, keeps the rest. -/
def filterUser (u : User) : FilteredUser :=
  { id := u.id, username := u.username, email := u.email,
    avatarUrl := u.avatarUrl, role := u.role }

/-- Token pair returned by `createTokens`. -/
structure Tokens where
  accessToken : String
  refreshToken : String
  deriving Repr, DecidableEq

/-- Modelled from the spec: `createTokens(user)` from `auth/authUtils` (not
among the provided sources) issues a signed access/refresh token pair for
the user; the payloads embed the user identity. -/
def createTokens (u : User) : Tokens :=
  { accessToken := "access." ++ toString u.id,
    refreshToken := "refresh." ++ toString u.id }

/-- The two auth cookies the controller sets at login and clears at
logout. `none` means the cookie is absent/cleared. -/
structure Cookies where
  accessToken : Option String
  refreshToken : Option String
  deriving Repr, DecidableEq

/-- Error values thrown by the controller and middleware, from
`core/ApiError`: `BadRequestError`, `AuthFailureError`, `RateLimitError`,
each carrying its message. The spec's taxonomy maps onto these:
`DuplicateIdentity` is the BadRequestError of a signup collision,
`MissingCredentials` is BadRequestError "No credentials provided",
`RateLimitExceeded` is RateLimitError. -/
inductive ApiError where
  | BadRequestError (msg : String)
  | AuthFailureError (msg : String)
  | RateLimitError (msg : String)
  deriving Repr, DecidableEq

deriving instance DecidableEq for Except

/-- Modelled from the spec: `userRepo.findByEmail` — datastore lookup of a
user by exact email (the datastore is an excluded collaborator, specified
as simple CRUD). -/
def findByEmail (db : List User) (email : String) : Option User :=
  db.find? (fun u => u.email == email)

/-- Modelled from the spec: `userRepo.findByUsername` — datastore lookup of
a user by exact username. -/
def findByUsername (db : List User) (username : String) : Option User :=
  db.find? (fun u => u.username == username)

/-- Modelled from the spec: `userRepo.findByEmailOrUsername` — resolves a
login identifier as either email or username. -/
def findByEmailOrUsername (db : List User) (ident : String) : Option User :=
  db.find? (fun u => u.email == ident || u.username == ident)

/-- The zero-padding at `user.controller.ts` line 35: numbers below 10 get
a leading zero. -/
def formattedNumber (n : Nat) : String :=
  if n < 10 then "0" ++ toString n else toString n

/-- The avatar URL built at `user.controller.ts` line 43 from the formatted
avatar number. -/
def avatarUrlFor (n : Nat) : String :=
  "https://imageserver-1-466g.onrender.com/static/avatars/avatar"
    ++ formattedNumber n ++ ".avif"

/-- The `signUp` controller (`user.controller.ts` lines 13-55). The
datastore is passed and returned explicitly; `nextId` is the id the
datastore assigns to a created user, `salt` is the random salt drawn by
`bcrypt.hash`, and `avatarNumber` is the outcome of
`Math.floor(Math.random() * 23) + 1` (line 32), i.e. the ambient random
avatar draw in 1..23. On an error throw the datastore is unchanged. -/
def signUp (db : List User) (nextId : Nat) (email username password : String)
    (salt avatarNumber : Nat) :
    Except ApiError (FilteredUser × Tokens) × List User :=
  match findByEmail db email with
  | some _ => (.error (.BadRequestError "Email already exists"), db)
  | none =>
    match findByUsername db username with
    | some _ => (.error (.BadRequestError "Username already exists"), db)
    | none =>
      let hashedPassword := bcryptHash salt password
      let user : User :=
        { id := nextId, username := username, email := email,
          password := hashedPassword,
          avatarUrl := avatarUrlFor avatarNumber,
          status := true, role := RoleCode.USER }
      (.ok (filterUser user, createTokens user), db ++ [user])

/-- The successful login response (`user.controller.ts` lines 68-85): the
filtered user, the token pair, and the two cookies attached to the
response. -/
structure LoginResponse where
  user : FilteredUser
  tokens : Tokens
  cookies : Cookies
  deriving Repr, DecidableEq

/-- The `login` controller (`user.controller.ts` lines 57-86). The
password is `Option String` because `req.body` may omit it; the guard
`if (!password)` treats an absent or empty-string password as missing
(JavaScript falsiness). Note the order of the source: the identifier
lookup happens BEFORE the missing-password check. -/
def login (db : List User) (userId : String) (password : Option String) :
    Except ApiError LoginResponse :=
  match findByEmailOrUsername db userId with
  | none => .error (.BadRequestError "Invalid email/username")
  | some user =>
    let pw := password.getD ""
    if pw == "" then .error (.BadRequestError "No credentials provided")
    else if bcryptCompare pw user.password then
      let tokens := createTokens user
      .ok { user := filterUser user, tokens := tokens,
            cookies := { accessToken := some tokens.accessToken,
                         refreshToken := some tokens.refreshToken } }
    else .error (.AuthFailureError "Invalid credentials")

/-- The `logout` controller (`user.controller.ts` lines 88-97): clears both
auth cookies on the response and always answers "Logout successful"; it
never consults any session state and never throws. -/
def logout (_c : Cookies) : Cookies × String :=
  ({ accessToken := none, refreshToken := none }, "Logout successful")

/-- Configuration of the `express-rate-limit` limiter in the app entry
file: `windowMs` and `max`. -/
structure LimiterConfig where
  windowMs : Nat
  max : Nat
  deriving Repr, DecidableEq

/-- The configured limiter: `windowMs: 1 * 60 * 1000, max: 200` (app entry
file lines 32-34). -/
def zenLimiter : LimiterConfig := { windowMs := 60000, max := 200 }

/-- A per-key window entry of the limiter's memory store: the hit count and
the time the current window resets. -/
structure LimiterEntry where
  totalHits : Nat
  resetTime : Nat
  deriving Repr, DecidableEq

/-- The limiter's store: hit counters keyed by the client key string. -/
abbrev LimiterState := List (String × LimiterEntry)

/-- The `keyGenerator` of the limiter (app entry file line 37):
`requestIp.getClientIp(req) || ""`. `getClientIp` yields the resolved
client IP or `null`; the JavaScript `||` collapses `null` (and an empty
string) to `""`, which is exactly `Option.getD "" `. -/
def keyGenerator (clientIp : Option String) : String :=
  clientIp.getD ""

/-- The rate-limit rejection message built by the configured `handler`
(app entry file lines 38-46):
`You exceeded the request limit. Allowed ${max} requests per
${windowMs / 60000} minute.` wrapped in a `RateLimitError`. -/
def limiterHandlerMsg (cfg : LimiterConfig) : String :=
  "You exceeded the request limit. Allowed " ++ toString cfg.max
    ++ " requests per " ++ toString (cfg.windowMs / 60000) ++ " minute."

/-- The limiter's verdict on one request. `denied` carries the
`RateLimitError` passed to `next` by the handler. -/
inductive LimiterDecision where
  | allowed
  | denied (err : ApiError)
  deriving Repr, DecidableEq

/-- One request through the `express-rate-limit` middleware: the memory
store increments the key's counter (starting a fresh window when none
exists or the previous window has expired), then the request is rejected
through the configured handler exactly when the incremented count exceeds
`max`, so the request itself is always counted. -/
def limiterStep (cfg : LimiterConfig) (st : LimiterState) (key : String)
    (now : Nat) : LimiterDecision × LimiterState :=
  let entry : LimiterEntry :=
    match st.lookup key with
    | some e =>
      if e.resetTime ≤ now then { totalHits := 1, resetTime := now + cfg.windowMs }
      else { totalHits := e.totalHits + 1, resetTime := e.resetTime }
    | none => { totalHits := 1, resetTime := now + cfg.windowMs }
  let st' : LimiterState := (key, entry) :: st.filter (fun kv => kv.1 != key)
  (if cfg.max < entry.totalHits then
      .denied (.RateLimitError (limiterHandlerMsg cfg))
    else .allowed,
   st')

/-- The limiter middleware as wired in the app: the key for a request is
produced by `keyGenerator` from the resolved client IP. -/
def limiterRequest (cfg : LimiterConfig) (st : LimiterState)
    (clientIp : Option String) (now : Nat) : LimiterDecision × LimiterState :=
  limiterStep cfg st (keyGenerator clientIp) now

/-- A run of `n` requests from one client key, the `i`-th request (counted
from 1) arriving at time `t (i - 1)`. Returns the decision of the last
request and the store afterwards; before any request the store is empty. -/
def limiterRun (cfg : LimiterConfig) (key : String) (t : Nat → Nat) :
    Nat → LimiterDecision × LimiterState
  | 0 => (.allowed, [])
  | n + 1 => limiterStep cfg (limiterRun cfg key t n).2 key (t n)

/-- A concrete registered user, used to instantiate theorems: password
digest obtained from the hasher on plaintext "pw" with salt 7. -/
def alice : User :=
  { id := 1, username := "alice", email := "alice@x.com",
    password := bcryptHash 7 "pw", avatarUrl := avatarUrlFor 3,
    status := true, role := RoleCode.USER }

/-- The token pair `createTokens` issues for `alice`. -/
def aliceTokens : Tokens := createTokens alice

/-- The response a successful login of `alice` produces. -/
def aliceLoginResponse : LoginResponse :=
  { user := filterUser alice, tokens := aliceTokens,
    cookies := { accessToken := some aliceTokens.accessToken,
                 refreshToken := some aliceTokens.refreshToken } }

/-- C1: the source does NOT satisfy the claim. A lookup miss throws
`BadRequestError "Invalid email/username"` (line 61) while a password
mismatch on an existing user throws `AuthFailureError "Invalid
credentials"` (line 66): the two error kinds and messages differ, so the
response reveals which check failed. Witnessed concretely on a one-user
store. -/
theorem login_error_distinguishes_lookup_from_password :
    login [alice] "ghost" (some "pw")
      = .error (.BadRequestError "Invalid email/username") ∧
    login [alice] "alice@x.com" (some "wrong")
      = .error (.AuthFailureError "Invalid credentials") ∧
    ApiError.BadRequestError "Invalid email/username"
      ≠ ApiError.AuthFailureError "Invalid credentials" := by
  refine ⟨by decide, by decide, by decide⟩

/-- C3 counterexample: with an identifier matching no user and no password
supplied, `login` fails with the lookup error "Invalid email/username"
(line 61), not with the missing-credentials error "No credentials
provided" (line 63), because the source checks the identifier before the
password. -/
theorem login_missing_password_counterexample :
    login [] "ghost" none = .error (.BadRequestError "Invalid email/username") ∧
    ApiError.BadRequestError "Invalid email/username"
      ≠ ApiError.BadRequestError "No credentials provided" := by
  refine ⟨by decide, by decide⟩

/-- C3 amended: when no password is supplied AND the identifier matches an
existing user, `login` fails with the missing-credentials error. -/
theorem login_missing_password_after_lookup (db : List User) (ident : String)
    (u : User) (h : findByEmailOrUsername db ident = some u) :
    login db ident none = .error (.BadRequestError "No credentials provided") := by
  simp [login, h]

/-- Witness for the amended C3 at a concrete store and identifier. -/
theorem login_missing_password_after_lookup_witness :
    login [alice] "alice" none
      = .error (.BadRequestError "No credentials provided") :=
  login_missing_password_after_lookup [alice] "alice" alice (by decide)

/-- C7: `logout` is idempotent — the second call yields exactly the same
cleared cookie pair and the same success message as the first, and it
succeeds (the controller never throws: it unconditionally clears both
cookies and sends "Logout successful"). -/
theorem logout_idempotent (c : Cookies) :
    logout (logout c).1 = logout c ∧
    (logout (logout c).1).1
      = { accessToken := none, refreshToken := none } ∧
    (logout (logout c).1).2 = "Logout successful" :=
  ⟨rfl, rfl, rfl⟩

/-- C8: hasher round-trip — verifying a plaintext against the digest
produced by hashing that same plaintext succeeds for every salt and every
plaintext, and the digest records cost factor 10 as used at signup. -/
theorem bcrypt_roundtrip (salt : Nat) (p : String) :
    bcryptCompare p (bcryptHash salt p) = true ∧
    (bcryptHash salt p).cost = 10 := by
  refine ⟨?_, rfl⟩
  simp [bcryptCompare, bcryptHash]

/-- C4 counterexample: the avatar reference is drawn from
`Math.floor(Math.random() * 23) + 1` (line 32): two signup runs with the
same inputs, same prior (empty) store and same salt, but different random
draws (1 versus 2), create users with different avatar references — the
assignment is not deterministic in the inputs and prior state. -/
theorem signUp_avatar_counterexample :
    ((signUp [] 1 "bob@x.com" "bob" "secret" 3 1).2.map User.avatarUrl
      = [avatarUrlFor 1]) ∧
    ((signUp [] 1 "bob@x.com" "bob" "secret" 3 2).2.map User.avatarUrl
      = [avatarUrlFor 2]) ∧
    avatarUrlFor 1 ≠ avatarUrlFor 2 := by
  refine ⟨by decide, by decide, by decide⟩

/-- C4 amended: the avatar reference is a deterministic function of the
ambient random draw — every successful signup with draw `n` assigns
exactly `avatarUrlFor n` (the fixed URL with the zero-padded index), so
runs agreeing on inputs, prior state AND draw agree on the avatar. -/
theorem signUp_avatar_from_draw (db : List User) (nextId : Nat)
    (email username password : String) (salt n : Nat)
    (fu : FilteredUser) (tks : Tokens)
    (h : (signUp db nextId email username password salt n).1 = .ok (fu, tks)) :
    fu.avatarUrl = avatarUrlFor n := by
  unfold signUp at h
  cases he : findByEmail db email with
  | some u => rw [he] at h; simp at h
  | none =>
    rw [he] at h
    cases hu : findByUsername db username with
    | some u => rw [hu] at h; simp at h
    | none =>
      rw [hu] at h
      simp [filterUser] at h
      rw [← h.1]

/-- Witness for the amended C4: the signup of `bob` with draw 5 assigns
the avatar reference with index "05". -/
theorem signUp_avatar_from_draw_witness :
    (filterUser
      { id := 1, username := "bob", email := "bob@x.com",
        password := bcryptHash 3 "secret", avatarUrl := avatarUrlFor 5,
        status := true, role := RoleCode.USER }).avatarUrl = avatarUrlFor 5 :=
  signUp_avatar_from_draw [] 1 "bob@x.com" "bob" "secret" 3 5
    (filterUser
      { id := 1, username := "bob", email := "bob@x.com",
        password := bcryptHash 3 "secret", avatarUrl := avatarUrlFor 5,
        status := true, role := RoleCode.USER })
    (createTokens
      { id := 1, username := "bob", email := "bob@x.com",
        password := bcryptHash 3 "secret", avatarUrl := avatarUrlFor 5,
        status := true, role := RoleCode.USER })
    (by decide)

/-- C6: every successful login returns the destructured projection of the
matched user, and that projection is invariant under replacing the user's
password digest by ANY digest — the returned object carries no password
digest information (the `FilteredUser` type has no password field at
all). -/
theorem login_strips_password (db : List User) (ident : String)
    (p : Option String) (r : LoginResponse)
    (h : login db ident p = .ok r) :
    ∃ u, findByEmailOrUsername db ident = some u ∧
      ∀ d : BcryptDigest, r.user = filterUser { u with password := d } := by
  unfold login at h
  cases he : findByEmailOrUsername db ident with
  | none => rw [he] at h; simp at h
  | some u =>
    rw [he] at h
    refine ⟨u, rfl, fun d => ?_⟩
    dsimp only at h
    split at h
    · exact absurd h (by simp)
    · split at h
      · injection h with h
        rw [← h]
        simp [filterUser]
      · exact absurd h (by simp)

/-- Witness for C6: the concrete successful login of `alice`. -/
theorem login_strips_password_witness :
    ∃ u, findByEmailOrUsername [alice] "alice@x.com" = some u ∧
      ∀ d : BcryptDigest,
        aliceLoginResponse.user = filterUser { u with password := d } :=
  login_strips_password [alice] "alice@x.com" (some "pw") aliceLoginResponse
    (by decide)

/-- C2: a signup whose email or username already belongs to a stored user
fails with the corresponding duplicate-identity `BadRequestError` ("Email
already exists" / "Username already exists", the code's rendering of
`DuplicateIdentity`) and leaves the stored list of users unchanged — no
User is created. -/
theorem signUp_duplicate_rejected (db : List User) (nextId : Nat)
    (email username password : String) (salt n : Nat)
    (h : (findByEmail db email).isSome ∨ (findByUsername db username).isSome) :
    ((signUp db nextId email username password salt n).1
        = .error (.BadRequestError "Email already exists") ∨
      (signUp db nextId email username password salt n).1
        = .error (.BadRequestError "Username already exists")) ∧
    (signUp db nextId email username password salt n).2 = db := by
  unfold signUp
  cases he : findByEmail db email with
  | some u => simp
  | none =>
    cases hu : findByUsername db username with
    | some u => simp
    | none => rw [he, hu] at h; simp at h

/-- Witness for C2: signing up with `alice`'s email on a store containing
`alice` is rejected and the store stays `[alice]`. -/
theorem signUp_duplicate_rejected_witness :
    ((signUp [alice] 2 "alice@x.com" "newguy" "pw2" 1 1).1
        = .error (.BadRequestError "Email already exists") ∨
      (signUp [alice] 2 "alice@x.com" "newguy" "pw2" 1 1).1
        = .error (.BadRequestError "Username already exists")) ∧
    (signUp [alice] 2 "alice@x.com" "newguy" "pw2" 1 1).2 = [alice] :=
  signUp_duplicate_rejected [alice] 2 "alice@x.com" "newguy" "pw2" 1 1
    (Or.inl (by decide))

/-- C10: the email uniqueness check runs first (lines 16-20 before lines
22-26): when the email collides — in particular when BOTH email and
username collide — the reported failure is the email collision, and the
outcome is entirely independent of the username, password, salt and draw,
i.e. the username lookup never influences the result. -/
theorem signUp_email_checked_first (db : List User) (nextId : Nat)
    (email username password : String) (salt n : Nat)
    (hE : (findByEmail db email).isSome)
    (_hU : (findByUsername db username).isSome) :
    (signUp db nextId email username password salt n).1
      = .error (.BadRequestError "Email already exists") ∧
    ∀ username₂ password₂ salt₂ n₂,
      signUp db nextId email username₂ password₂ salt₂ n₂
        = signUp db nextId email username password salt n := by
  obtain ⟨u, hu⟩ := Option.isSome_iff_exists.mp hE
  constructor
  · unfold signUp
    rw [hu]
  · intro username₂ password₂ salt₂ n₂
    unfold signUp
    rw [hu]

/-- Witness for C10: both the email and the username collide with `alice`;
the email collision is the one reported. -/
theorem signUp_email_checked_first_witness :
    (signUp [alice] 2 "alice@x.com" "alice" "pw2" 1 1).1
      = .error (.BadRequestError "Email already exists") ∧
    ∀ username₂ password₂ salt₂ n₂,
      signUp [alice] 2 "alice@x.com" username₂ password₂ salt₂ n₂
        = signUp [alice] 2 "alice@x.com" "alice" "pw2" 1 1 :=
  signUp_email_checked_first [alice] 2 "alice@x.com" "alice" "pw2" 1 1
    (by decide) (by decide)

/-- Store invariant of the limiter: after `n ≥ 1` requests from one key,
all arriving before the first request's window expires, the store holds
exactly one entry for that key with `n` hits and the reset time fixed by
the first request. -/
theorem limiterRun_state (cfg : LimiterConfig) (key : String) (t : Nat → Nat) :
    ∀ n, 1 ≤ n → (∀ i, i < n → t i < t 0 + cfg.windowMs) →
    (limiterRun cfg key t n).2
      = [(key, { totalHits := n, resetTime := t 0 + cfg.windowMs })] := by
  intro n
  induction n with
  | zero => intro h _; exact absurd h (by omega)
  | succ m ih =>
    intro _ ht
    rcases Nat.eq_zero_or_pos m with hm | hm
    · subst hm
      simp [limiterRun, limiterStep]
    · have ihm := ih hm (fun i hi => ht i (Nat.lt_succ_of_lt hi))
      have hlt : ¬ (t 0 + cfg.windowMs ≤ t m) := by
        have := ht m (Nat.lt_succ_self m)
        omega
      simp [limiterRun, ihm, limiterStep, List.lookup, hlt]

/-- Decision of the `n`-th in-window request from one key: denied exactly
when the incremented counter `n` exceeds the configured maximum. -/
theorem limiterRun_decision (cfg : LimiterConfig) (key : String) (t : Nat → Nat)
    (n : Nat) (h1 : 1 ≤ n) (ht : ∀ i, i < n → t i < t 0 + cfg.windowMs) :
    (limiterRun cfg key t n).1
      = if cfg.max < n then
          .denied (.RateLimitError (limiterHandlerMsg cfg))
        else .allowed := by
  cases n with
  | zero => exact absurd h1 (by omega)
  | succ m =>
    cases m with
    | zero => simp [limiterRun, limiterStep]
    | succ k =>
      have ihm := limiterRun_state cfg key t (k + 1) (by omega)
        (fun i hi => ht i (by omega))
      have hlt : ¬ (t 0 + cfg.windowMs ≤ t (k + 1)) := by
        have := ht (k + 1) (by omega)
        omega
      have hstep : limiterRun cfg key t (k + 1 + 1)
          = limiterStep cfg (limiterRun cfg key t (k + 1)).2 key (t (k + 1)) := rfl
      rw [hstep, ihm]
      simp [limiterStep, List.lookup, hlt]

/-- C5: with the configured limiter (`max = 200`, `windowMs = 60000`), for
any single client key whose first 201 requests all arrive within the
window opened by the first, the 200th request is allowed and the 201st is
rejected with the `RateLimitError` built by the configured handler. -/
theorem rateLimit_200th_allowed_201st_denied (key : String) (t : Nat → Nat)
    (ht : ∀ i, i < 201 → t i < t 0 + 60000) :
    (limiterRun zenLimiter key t 200).1 = .allowed ∧
    (limiterRun zenLimiter key t 201).1
      = .denied (.RateLimitError (limiterHandlerMsg zenLimiter)) := by
  have hw : zenLimiter.windowMs = 60000 := rfl
  constructor
  · rw [limiterRun_decision zenLimiter key t 200 (by omega)
      (fun i hi => by rw [hw]; exact ht i (by omega))]
    simp [zenLimiter]
  · rw [limiterRun_decision zenLimiter key t 201 (by omega)
      (fun i hi => by rw [hw]; exact ht i (by omega))]
    simp [zenLimiter]

/-- Witness for C5 at a concrete key with all requests at time 0. -/
theorem rateLimit_200th_allowed_201st_denied_witness :
    (limiterRun zenLimiter "1.2.3.4" (fun _ => 0) 200).1 = .allowed ∧
    (limiterRun zenLimiter "1.2.3.4" (fun _ => 0) 201).1
      = .denied (.RateLimitError (limiterHandlerMsg zenLimiter)) :=
  rateLimit_200th_allowed_201st_denied "1.2.3.4" (fun _ => 0)
    (fun i _ => by simp)

/-- C9: the limiter keys requests by the resolved client IP
(`keyGenerator` returns the IP itself when one resolves), an unresolvable
address (`getClientIp` yields null) maps to the empty-string key — the
same key the empty-IP case maps to — and two consecutive requests with no
resolvable address therefore increment one shared counter, here reaching
2 hits on the `""` entry from an empty store. -/
theorem keyGenerator_unresolved_shared (now : Nat) :
    keyGenerator none = "" ∧
    (∀ ip : String, keyGenerator (some ip) = ip) ∧
    ((limiterRequest zenLimiter
        (limiterRequest zenLimiter [] none now).2 none now).2).lookup ""
      = some { totalHits := 2, resetTime := now + 60000 } := by
  refine ⟨rfl, fun ip => rfl, ?_⟩
  have hlt : ¬ (now + zenLimiter.windowMs ≤ now) := by simp [zenLimiter]
  simp [limiterRequest, keyGenerator, limiterStep, List.lookup, hlt, zenLimiter]

end ZenChat
